import Mathlib

/-!
Shallow embedding of the TikTok username checker (`checker.py`) and proofs
about its normalizer, status resolver, retry policy, bulk orchestrator and
report formatter.  Every definition mirrors the corresponding Python code;
network effects are abstracted by explicit response/outcome parameters.
-/

namespace Checker

/-! ### Python string primitives -/

/-- Python `str.lower()`, restricted to the ASCII case mapping: every marker
string and handle compared by the checker is ASCII. -/
def strLower (s : String) : String := ⟨s.data.map Char.toLower⟩

/-- Python `str.upper()` (ASCII case mapping). -/
def strUpper (s : String) : String := ⟨s.data.map Char.toUpper⟩

/-- Python `str.lstrip("@")`: drop every leading `'@'` character. -/
def lstripAt (s : String) : String := ⟨s.data.dropWhile (fun c => c == '@')⟩

/-- Python `str.strip()`: drop leading and trailing whitespace. -/
def stripWs (s : String) : String :=
  ⟨((s.data.dropWhile Char.isWhitespace).reverse.dropWhile Char.isWhitespace).reverse⟩

/-- Python substring test `needle in haystack`, on lists of characters. -/
def listContainsSub : List Char → List Char → Bool
  | [], needle => needle.isEmpty
  | c :: t, needle => needle.isPrefixOf (c :: t) || listContainsSub t needle

/-- Python `needle in haystack` on strings. -/
def strContains (haystack needle : String) : Bool :=
  listContainsSub haystack.data needle.data

/-- ASCII apostrophe, used inside some marker strings. -/
def apos : String := String.singleton (Char.ofNat 39)

/-! ### Data model (checker.py lines 21-34) -/

/-- The `UsernameStatus` enumeration. -/
inductive UsernameStatus where
  | AVAILABLE
  | TAKEN
  | UNAVAILABLE
  | ERROR
  deriving DecidableEq, Repr

/-- The `CheckResult` dataclass: `username`, `status`, optional `message`. -/
structure CheckResult where
  username : String
  status : UsernameStatus
  message : Option String
  deriving DecidableEq, Repr

/-! ### Class constants (checker.py lines 46-62) -/

def MAX_RETRIES : Nat := 3

def RETRY_DELAY : Nat := 2

/-- Model of `USERNAME_PATTERN = re.compile(r'^[a-zA-Z0-9_.]{2,24}$')`: the character
class of the pattern. -/
def isUsernameChar (c : Char) : Bool := c.isAlpha || c.isDigit || c == '_' || c == '.'

/-- Full match of `USERNAME_PATTERN` (2-24 characters from the class; the
strings the checker matches never end in a newline, so `$` is end-of-string). -/
def usernamePatternMatch (s : String) : Bool :=
  decide (2 ≤ s.length) && decide (s.length ≤ 24) && s.data.all isUsernameChar

/-! ### Input normalizer (checker.py lines 98-126) -/

/-- Model of `validate_username`: empty is invalid; otherwise `@`-lstrip, strip and
match against the pattern (lines 108-114). -/
def validate_username (username : String) : Bool :=
  if username.isEmpty then false
  else usernamePatternMatch (stripWs (lstripAt username))

/-- Model of `clean_username`: `username.lstrip('@').strip().lower()` (line 126). -/
def clean_username (username : String) : String :=
  strLower (stripWs (lstripAt username))

/-- The format-error message of `check_username` (line 146). -/
def invalidFormatMsg : String :=
  "Неверный формат юзернейма (2-24 символа, буквы, цифры, _ и .)"

/-- Model of `check_username` (lines 128-150): clean, validate, and either return the
format-error result without touching the network or hand the cleaned name to
the retry-wrapped resolver (abstracted by `resolve`). -/
def check_username (username : String) (resolve : String → CheckResult) : CheckResult :=
  let clean_name := clean_username username
  if validate_username clean_name then resolve clean_name
  else ⟨username, .UNAVAILABLE, some invalidFormatMsg⟩

/-! ### HTML heuristic classifier (checker.py lines 291-465) -/

def availMsg : String := "Юзернейм свободен для регистрации"

def takenMsg : String := "Юзернейм уже занят другим пользователем"

def bannedMsg : String := "Аккаунт забанен (юзернейм может стать доступен позже)"

def manualCheckMsg : String := "Юзернейм предположительно занят (требуется ручная проверка)"

def forbiddenMsg : String := "Доступ запрещён (возможно rate-limit)"

def serverErrMsg (status_code : Nat) : String :=
  "Ошибка сервера TikTok: " ++ toString status_code

def unknownStatusMsg (status_code : Nat) : String :=
  "Неопределённый статус (HTTP " ++ toString status_code ++ ") - предположительно занят"

/-- The `definite_not_found` marker list (lines 327-336). -/
def definite_not_found : List String :=
  ["\"statuscode\":10202",
   "\"statuscode\": 10202",
   "\"status_code\":10202",
   "\"status_code\": 10202",
   "\"statusmsg\":\"user not exist\"",
   "\"statusmsg\": \"user not exist\"",
   "\"statusmsg\":\"user doesn" ++ apos ++ "t exist\"",
   "\"errormsg\":\"user not exist\""]

/-- The `uniqueid_patterns` list, built from the lowercased username (lines 350-357). -/
def uniqueid_patterns (username_lower : String) : List String :=
  ["\"uniqueid\":\"" ++ username_lower ++ "\"",
   "\"uniqueid\": \"" ++ username_lower ++ "\"",
   "\"unique_id\":\"" ++ username_lower ++ "\"",
   "\"unique_id\": \"" ++ username_lower ++ "\"",
   "\"uniqueId\":\"" ++ username_lower ++ "\"",
   "\"uniqueId\": \"" ++ username_lower ++ "\""]

/-- The `profile_indicators` list (lines 369-378). -/
def profile_indicators : List String :=
  ["\"followercount\"",
   "\"followingcount\"",
   "\"heartcount\"",
   "\"videocount\"",
   "\"diggcount\"",
   "\"follower_count\"",
   "\"following_count\"",
   "\"heart_count\""]

/-- The `banned_indicators` list (lines 392-401). -/
def banned_indicators : List String :=
  ["this account has been banned",
   "account suspended",
   "this account is suspended",
   "this account was banned",
   "account has been suspended",
   "violates our community guidelines",
   "\"statuscode\":10101",
   "\"status_code\":10101"]

/-- The `text_not_found` marker list (lines 414-421). -/
def text_not_found : List String :=
  ["couldn" ++ apos ++ "t find this account",
   "couldn" ++ apos ++ "t find this page",
   "user not found",
   "page not found",
   "this account doesn" ++ apos ++ "t exist",
   "user doesn" ++ apos ++ "t exist"]

/-- One marker loop of `_analyze_response`: some `indicator.lower()` occurs in
the lowercased content. -/
def anyIndicatorIn (indicators : List String) (content_lower : String) : Bool :=
  indicators.any (fun ind => strContains content_lower (strLower ind))

/-- Model of `profile_score = sum(1 for ind in profile_indicators if ind in
content_lower)` (line 380; these indicators are matched verbatim). -/
def profile_score (content_lower : String) : Nat :=
  profile_indicators.countP (fun ind => strContains content_lower ind)

/-- Model of `_analyze_response` (lines 291-465): status-code dispatch and, for
HTTP 200, the ordered first-match-wins cascade over the lowercased body. -/
def analyze_response (username : String) (status_code : Nat) (content : String) :
    CheckResult :=
  let content_lower := strLower content
  let username_lower := strLower username
  if status_code = 404 then ⟨username, .AVAILABLE, some availMsg⟩
  else if status_code = 200 then
    if anyIndicatorIn definite_not_found content_lower then
      ⟨username, .AVAILABLE, some availMsg⟩
    else if anyIndicatorIn (uniqueid_patterns username_lower) content_lower then
      ⟨username, .TAKEN, some takenMsg⟩
    else if 2 ≤ profile_score content_lower then
      ⟨username, .TAKEN, some takenMsg⟩
    else if anyIndicatorIn banned_indicators content_lower then
      ⟨username, .UNAVAILABLE, some bannedMsg⟩
    else if anyIndicatorIn text_not_found content_lower then
      ⟨username, .AVAILABLE, some availMsg⟩
    else
      ⟨username, .TAKEN, some manualCheckMsg⟩
  else if status_code = 403 then ⟨username, .ERROR, some forbiddenMsg⟩
  else if 500 ≤ status_code then ⟨username, .ERROR, some (serverErrMsg status_code)⟩
  else ⟨username, .TAKEN, some (unknownStatusMsg status_code)⟩

/-! ### Structured API probe (checker.py lines 227-289) -/

/-- The fields of the parsed API JSON that `_check_via_api` reads:
`statusCode`, `status_code`, and `userInfo.user.uniqueId` (absent at any
point of the path gives `none`). -/
structure ApiData where
  statusCode : Option Int
  status_code : Option Int
  uniqueId : Option String
  deriving DecidableEq, Repr

/-- Model of `data.get("statusCode", data.get("status_code", 0))` (line 251). -/
def apiStatusCode (data : ApiData) : Int :=
  match data.statusCode with
  | some v => v
  | none =>
    match data.status_code with
    | some v => v
    | none => 0

/-- The body of the API HTTP response: `response.json()` either raises or
yields parsed data. -/
inductive ApiBody where
  | unparseable (err : String)
  | parsed (data : ApiData)
  deriving DecidableEq, Repr

/-- The outcome of the API GET: the request raises, or an HTTP response with
a status and a body arrives. -/
inductive ApiResponse where
  | failure (err : String)
  | response (status : Nat) (body : ApiBody)
  deriving DecidableEq, Repr

def apiTakenMsg : String := "Юзернейм занят (подтверждено через API)"

def apiAvailMsg : String := "Юзернейм свободен (подтверждено через API)"

def apiBannedMsg : String := "Аккаунт забанен"

/-- Model of `_check_via_api` (lines 227-289): acts only on HTTP 200 with parsed JSON;
maps sentinel 0 (with case-insensitive `uniqueId` match) to TAKEN, 10202 to
AVAILABLE, 10101 to UNAVAILABLE; everything else — including any raised
network or parse error — is swallowed into `none`. -/
def check_via_api (username : String) (resp : ApiResponse) : Option CheckResult :=
  match resp with
  | .failure _ => none
  | .response status body =>
    if status = 200 then
      match body with
      | .unparseable _ => none
      | .parsed data =>
        let sc := apiStatusCode data
        if sc = 0 ∧ strLower (data.uniqueId.getD "") = strLower username then
          some ⟨username, .TAKEN, some apiTakenMsg⟩
        else if sc = 10202 then some ⟨username, .AVAILABLE, some apiAvailMsg⟩
        else if sc = 10101 then some ⟨username, .UNAVAILABLE, some apiBannedMsg⟩
        else none
    else none

/-- Model of `_perform_check` (lines 191-225): the API probe first; on `none`, fall
back to fetching the profile page (whose HTTP status and body are the last
two arguments) and classifying it with `_analyze_response`. -/
def perform_check (username : String) (api : ApiResponse) (status_code : Nat)
    (content : String) : CheckResult :=
  match check_via_api username api with
  | some r => r
  | none => analyze_response username status_code content

/-! ### Retry policy (checker.py lines 152-189) -/

/-- One attempt of `_perform_check` either returns a result or raises a
transport fault (`aiohttp.ClientError` / `asyncio.TimeoutError`). -/
inductive AttemptOutcome where
  | ok (r : CheckResult)
  | fault (err : String)
  deriving DecidableEq, Repr

/-- The exhausted-retries message (line 188). -/
def retryExhaustedMsg (last_error : Option String) : String :=
  "Ошибка после " ++ toString MAX_RETRIES ++ " попыток: " ++ last_error.getD "None"

/-- The loop of `_check_with_retry` over the attempt numbers
`range(1, MAX_RETRIES + 1)`, carrying the last recorded fault.  Returns the
result, the list of delays slept (`RETRY_DELAY * attempt`, slept only while
`attempt < MAX_RETRIES`), and the number of attempts made. -/
def check_with_retry_go (username : String) (att : Nat → AttemptOutcome) :
    List Nat → Option String → CheckResult × List Nat × Nat
  | [], last_error => (⟨username, .ERROR, some (retryExhaustedMsg last_error)⟩, [], 0)
  | k :: ks, _ =>
    match att k with
    | .ok r => (r, [], 1)
    | .fault e =>
      let rest := check_with_retry_go username att ks (some e)
      (rest.1, (if k < MAX_RETRIES then [RETRY_DELAY * k] else []) ++ rest.2.1, rest.2.2 + 1)

/-- Model of `_check_with_retry` (lines 152-189): up to `MAX_RETRIES` attempts numbered
from 1; a received result is returned at once; a transport fault is caught, a
linear-backoff delay is slept, and the next attempt starts; after the last
faulted attempt an ERROR result is returned (nothing is re-raised). -/
def check_with_retry (username : String) (att : Nat → AttemptOutcome) :
    CheckResult × List Nat × Nat :=
  check_with_retry_go username att (List.range' 1 MAX_RETRIES) none

/-! ### Bulk orchestrator (checker.py lines 467-513) -/

/-- The body of the bulk loop: an unexpected exception from `check_username`
is converted into an ERROR result for that handle (lines 490-509). -/
def checkOrError (check : String → Except String CheckResult) (username : String) :
    CheckResult :=
  match check username with
  | .ok r => r
  | .error e => ⟨username, .ERROR, some e⟩

/-- The bulk loop over the username list; also counts how many resolutions
were started. -/
def check_bulk_go (check : String → Except String CheckResult) :
    List String → List CheckResult × Nat
  | [] => ([], 0)
  | u :: rest =>
    let r := checkOrError check u
    let restOut := check_bulk_go check rest
    (r :: restOut.1, restOut.2 + 1)

/-- Model of `check_bulk` (lines 467-513): empty input returns `[]` immediately (zero
resolutions); otherwise each username is resolved in order, exceptions
becoming ERROR results. -/
def check_bulk (check : String → Except String CheckResult) (usernames : List String) :
    List CheckResult × Nat :=
  if usernames.isEmpty then ([], 0) else check_bulk_go check usernames

/-! ### Full single-check pipeline -/

/-- What one attempt's network interaction yields: a raised transport fault,
or the API-probe response together with the profile-page response. -/
inductive NetOutcome where
  | fault (err : String)
  | response (api : ApiResponse) (status_code : Nat) (content : String)
  deriving DecidableEq, Repr

/-- Turn one attempt's network interaction into the attempt's outcome via
`_perform_check`. -/
def attemptOf (username : String) : NetOutcome → AttemptOutcome
  | .fault e => .fault e
  | .response api sc content => .ok (perform_check username api sc content)

/-- Model of `check_username` composed with the real retry-wrapped resolver: the full
single-handle pipeline of the source, with only the network abstracted. -/
def check_username_full (username : String) (net : Nat → NetOutcome) : CheckResult :=
  check_username username
    (fun clean_name => (check_with_retry clean_name (fun k => attemptOf clean_name (net k))).1)

/-! ### Result formatting (checker.py lines 515-597) -/

/-- The display text bound to each `UsernameStatus` value (lines 23-26). -/
def statusValue : UsernameStatus → String
  | .AVAILABLE => "✅ Доступен"
  | .TAKEN => "❌ Занят"
  | .UNAVAILABLE => "⚠️ Недоступен (забанен/недействителен)"
  | .ERROR => "🔴 Ошибка проверки"

/-- Model of `format_result` (line 526). -/
def format_result (r : CheckResult) : String :=
  "@" ++ r.username ++ ": " ++ statusValue r.status

/-- The four status groups computed by `format_results_report`
(lines 543-546). -/
def reportGroups (results : List CheckResult) :
    List CheckResult × List CheckResult × List CheckResult × List CheckResult :=
  (results.filter (fun r => r.status == .AVAILABLE),
   results.filter (fun r => r.status == .TAKEN),
   results.filter (fun r => r.status == .UNAVAILABLE),
   results.filter (fun r => r.status == .ERROR))

def hbar : String := ⟨List.replicate 40 '═'⟩

def sbar : String := ⟨List.replicate 40 '─'⟩

/-- Python `r.message or fallback`: `None` and the empty string are falsy. -/
def orElseStr (m : Option String) (fallback : String) : String :=
  match m with
  | some s => if s.isEmpty then fallback else s
  | none => fallback

def bulletLine (r : CheckResult) : String := "  • @" ++ r.username

def bulletLineMsg (fallback : String) (r : CheckResult) : String :=
  "  • @" ++ r.username ++ " - " ++ orElseStr r.message fallback

/-- Model of `format_results_report` (lines 528-597). -/
def format_results_report (results : List CheckResult) : String :=
  if results.isEmpty then "Нет результатов для отображения."
  else
    let (available, taken, unavailable, errors) := reportGroups results
    let header : List String :=
      [hbar,
       "📊 ОТЧЁТ О ПРОВЕРКЕ ЮЗЕРНЕЙМОВ TIKTOK",
       hbar,
       "",
       "📈 Всего проверено: " ++ toString results.length,
       "✅ Доступных: " ++ toString available.length,
       "❌ Занятых: " ++ toString taken.length,
       "⚠️ Недоступных: " ++ toString unavailable.length,
       "🔴 Ошибок: " ++ toString errors.length,
       ""]
    let availableSec :=
      if available.isEmpty then [] else
        [sbar, "✅ ДОСТУПНЫЕ ЮЗЕРНЕЙМЫ:", sbar] ++ available.map bulletLine ++ [""]
    let takenSec :=
      if taken.isEmpty then [] else
        [sbar, "❌ ЗАНЯТЫЕ ЮЗЕРНЕЙМЫ:", sbar] ++ taken.map bulletLine ++ [""]
    let unavailableSec :=
      if unavailable.isEmpty then [] else
        [sbar, "⚠️ НЕДОСТУПНЫЕ ЮЗЕРНЕЙМЫ:", sbar] ++
          unavailable.map (bulletLineMsg "Забанен/недействителен") ++ [""]
    let errorsSec :=
      if errors.isEmpty then [] else
        [sbar, "🔴 ОШИБКИ ПРОВЕРКИ:", sbar] ++
          errors.map (bulletLineMsg "Неизвестная ошибка") ++ [""]
    String.intercalate "\n"
      (header ++ availableSec ++ takenSec ++ unavailableSec ++ errorsSec ++
        [hbar, "Конец отчёта", hbar])

/-! ### Theorems -/

lemma check_bulk_go_eq (check : String → Except String CheckResult) (xs : List String) :
    check_bulk_go check xs = (xs.map (checkOrError check), xs.length) := by
  induction xs with
  | nil => rfl
  | cons u rest ih => simp [check_bulk_go, ih]

/-- C1: `check_bulk` returns exactly one `CheckResult` per input handle, in
input order: the output is the pointwise image of the input under the
per-handle resolution, where an unexpected exception raised by a resolution
is captured as an ERROR result carrying its text (so the batch never aborts);
the number of resolutions started equals the input length, hence empty input
yields the empty list with zero resolutions and no network activity. -/
theorem check_bulk_spec (check : String → Except String CheckResult) (xs : List String) :
    (check_bulk check xs).1 = xs.map (checkOrError check) ∧
    ((check_bulk check xs).1).length = xs.length ∧
    (check_bulk check xs).2 = xs.length := by
  cases xs with
  | nil => exact ⟨rfl, rfl, rfl⟩
  | cons u rest => simp [check_bulk, check_bulk_go_eq]

/-- C2: the retry wrapper makes at most `MAX_RETRIES = 3` attempts and retries
only when an attempt raises a transport fault; a received result is returned
immediately with no further attempts (whatever its status); the delay slept
before attempt `k + 1` is `RETRY_DELAY * k` (2 s then 4 s); and when all three
attempts fault, it returns — rather than propagates — an ERROR result whose
message names the attempt count and the last fault. -/
theorem check_with_retry_spec (u : String) (att : Nat → AttemptOutcome) :
    (∀ r, att 1 = .ok r → check_with_retry u att = (r, [], 1)) ∧
    (∀ e r, att 1 = .fault e → att 2 = .ok r →
      check_with_retry u att = (r, [RETRY_DELAY * 1], 2)) ∧
    (∀ e₁ e₂ r, att 1 = .fault e₁ → att 2 = .fault e₂ → att 3 = .ok r →
      check_with_retry u att = (r, [RETRY_DELAY * 1, RETRY_DELAY * 2], 3)) ∧
    (∀ e₁ e₂ e₃, att 1 = .fault e₁ → att 2 = .fault e₂ → att 3 = .fault e₃ →
      check_with_retry u att =
        (⟨u, .ERROR, some (retryExhaustedMsg (some e₃))⟩,
         [RETRY_DELAY * 1, RETRY_DELAY * 2], 3)) ∧
    (check_with_retry u att).2.2 ≤ MAX_RETRIES := by
  have hr : check_with_retry u att = check_with_retry_go u att [1, 2, 3] none := rfl
  refine ⟨?_, ?_, ?_, ?_, ?_⟩
  · intro r h₁
    rw [hr]
    simp [check_with_retry_go, h₁]
  · intro e r h₁ h₂
    rw [hr]
    simp [check_with_retry_go, h₁, h₂, MAX_RETRIES, RETRY_DELAY]
  · intro e₁ e₂ r h₁ h₂ h₃
    rw [hr]
    simp [check_with_retry_go, h₁, h₂, h₃, MAX_RETRIES, RETRY_DELAY]
  · intro e₁ e₂ e₃ h₁ h₂ h₃
    rw [hr]
    simp [check_with_retry_go, h₁, h₂, h₃, MAX_RETRIES, RETRY_DELAY]
  · rw [hr]
    rcases h₁ : att 1 with r₁ | e₁ <;> rcases h₂ : att 2 with r₂ | e₂ <;>
      rcases h₃ : att 3 with r₃ | e₃ <;>
        simp [check_with_retry_go, h₁, h₂, h₃, MAX_RETRIES, RETRY_DELAY]

/-- C2 witness: with a connection fault on every attempt, the handle "flaky"
yields exactly 3 attempts, delays 2 then 4, and the final ERROR result naming
3 attempts and the last fault. -/
theorem check_with_retry_spec_witness :
    check_with_retry "flaky" (fun _ => .fault "connection lost") =
      (⟨"flaky", .ERROR, some (retryExhaustedMsg (some "connection lost"))⟩,
       [RETRY_DELAY * 1, RETRY_DELAY * 2], 3) :=
  (check_with_retry_spec "flaky" (fun _ => .fault "connection lost")).2.2.2.1
    "connection lost" "connection lost" "connection lost" rfl rfl rfl

/-- C3: on an HTTP 200 body the classifier evaluates its rules in fixed order
with first match winning — definite not-found markers ⇒ AVAILABLE; a
canonical `uniqueId` key equal to the handle ⇒ TAKEN; 2 or more distinct
profile-statistics keys ⇒ TAKEN; banned/suspended markers ⇒ UNAVAILABLE;
generic not-found text ⇒ AVAILABLE — all matching being performed on the
lowercased body (so the outcome is case-insensitive in the content), and when
no rule matches it returns TAKEN with the manual-verification message. -/
theorem analyze_response_cascade (u c : String) :
    (∀ c', strLower c' = strLower c → analyze_response u 200 c' = analyze_response u 200 c) ∧
    (anyIndicatorIn definite_not_found (strLower c) = true →
      analyze_response u 200 c = ⟨u, .AVAILABLE, some availMsg⟩) ∧
    (anyIndicatorIn definite_not_found (strLower c) = false →
     anyIndicatorIn (uniqueid_patterns (strLower u)) (strLower c) = true →
      analyze_response u 200 c = ⟨u, .TAKEN, some takenMsg⟩) ∧
    (anyIndicatorIn definite_not_found (strLower c) = false →
     anyIndicatorIn (uniqueid_patterns (strLower u)) (strLower c) = false →
     2 ≤ profile_score (strLower c) →
      analyze_response u 200 c = ⟨u, .TAKEN, some takenMsg⟩) ∧
    (anyIndicatorIn definite_not_found (strLower c) = false →
     anyIndicatorIn (uniqueid_patterns (strLower u)) (strLower c) = false →
     ¬ 2 ≤ profile_score (strLower c) →
     anyIndicatorIn banned_indicators (strLower c) = true →
      analyze_response u 200 c = ⟨u, .UNAVAILABLE, some bannedMsg⟩) ∧
    (anyIndicatorIn definite_not_found (strLower c) = false →
     anyIndicatorIn (uniqueid_patterns (strLower u)) (strLower c) = false →
     ¬ 2 ≤ profile_score (strLower c) →
     anyIndicatorIn banned_indicators (strLower c) = false →
     anyIndicatorIn text_not_found (strLower c) = true →
      analyze_response u 200 c = ⟨u, .AVAILABLE, some availMsg⟩) ∧
    (anyIndicatorIn definite_not_found (strLower c) = false →
     anyIndicatorIn (uniqueid_patterns (strLower u)) (strLower c) = false →
     ¬ 2 ≤ profile_score (strLower c) →
     anyIndicatorIn banned_indicators (strLower c) = false →
     anyIndicatorIn text_not_found (strLower c) = false →
      analyze_response u 200 c = ⟨u, .TAKEN, some manualCheckMsg⟩) := by
  refine ⟨?_, ?_, ?_, ?_, ?_, ?_, ?_⟩
  · intro c' h
    simp only [analyze_response]
    rw [h]
  · intro h₁
    simp [analyze_response, h₁]
  · intro h₁ h₂
    simp [analyze_response, h₁, h₂]
  · intro h₁ h₂ h₃
    simp [analyze_response, h₁, h₂, h₃]
  · intro h₁ h₂ h₃ h₄
    simp [analyze_response, h₁, h₂, h₃, h₄]
  · intro h₁ h₂ h₃ h₄ h₅
    simp [analyze_response, h₁, h₂, h₃, h₄, h₅]
  · intro h₁ h₂ h₃ h₄ h₅
    simp [analyze_response, h₁, h₂, h₃, h₄, h₅]

/-- C3 witness: an HTTP 200 body matching no heuristic rule is classified
TAKEN by default, with the manual-verification message. -/
theorem analyze_response_cascade_witness :
    analyze_response "ambiguous_case" 200 "<html></html>" =
      ⟨"ambiguous_case", .TAKEN, some manualCheckMsg⟩ :=
  (analyze_response_cascade "ambiguous_case" "<html></html>").2.2.2.2.2.2
    (by decide) (by decide) (by decide) (by decide) (by decide)

/-- C6: the fallback classifier maps every non-200 HTTP status of the profile
page as: 404 ⇒ AVAILABLE, 403 ⇒ ERROR, any code ≥ 500 ⇒ ERROR, and every
other non-200 code ⇒ TAKEN (default-to-occupied); being a total function, it
produces exactly one `CheckResult` for every (status code, body) pair. -/
theorem analyze_response_status_map (u : String) (sc : Nat) (c : String) :
    (sc = 404 → analyze_response u sc c = ⟨u, .AVAILABLE, some availMsg⟩) ∧
    (sc = 403 → analyze_response u sc c = ⟨u, .ERROR, some forbiddenMsg⟩) ∧
    (500 ≤ sc → analyze_response u sc c = ⟨u, .ERROR, some (serverErrMsg sc)⟩) ∧
    (sc ≠ 200 → sc ≠ 404 → sc ≠ 403 → sc < 500 →
      analyze_response u sc c = ⟨u, .TAKEN, some (unknownStatusMsg sc)⟩) := by
  refine ⟨?_, ?_, ?_, ?_⟩
  · intro h
    subst h
    simp [analyze_response]
  · intro h
    subst h
    simp [analyze_response]
  · intro h
    have h₁ : sc ≠ 404 := by omega
    have h₂ : sc ≠ 200 := by omega
    have h₃ : sc ≠ 403 := by omega
    simp [analyze_response, h₁, h₂, h₃, h]
  · intro h₂₀₀ h₄₀₄ h₄₀₃ h₅₀₀
    have h₅ : ¬ 500 ≤ sc := by omega
    simp [analyze_response, h₂₀₀, h₄₀₄, h₄₀₃, h₅]

/-- C6 witness: HTTP 404 for the handle "totally_free_handle" is classified
AVAILABLE. -/
theorem analyze_response_status_map_witness :
    analyze_response "totally_free_handle" 404 "" =
      ⟨"totally_free_handle", .AVAILABLE, some availMsg⟩ :=
  (analyze_response_status_map "totally_free_handle" 404 "").1 rfl

/-- C5: the structured probe acts only on an HTTP 200 response with parsed
JSON; it maps the embedded status code 10202 to AVAILABLE, 0 to TAKEN exactly
when the profile's `uniqueId` case-insensitively equals the queried handle,
and 10101 to UNAVAILABLE; every other combination, parse failure, or network
failure yields the inconclusive `none` (the probe is total, so nothing is
re-raised), and `none` makes `_perform_check` fall through to classifying the
profile page with `_analyze_response`. -/
theorem check_via_api_spec (u : String) :
    (∀ e, check_via_api u (.failure e) = none) ∧
    (∀ st b, st ≠ 200 → check_via_api u (.response st b) = none) ∧
    (∀ e, check_via_api u (.response 200 (.unparseable e)) = none) ∧
    (∀ d, apiStatusCode d = 10202 →
      check_via_api u (.response 200 (.parsed d)) = some ⟨u, .AVAILABLE, some apiAvailMsg⟩) ∧
    (∀ d, apiStatusCode d = 0 → strLower (d.uniqueId.getD "") = strLower u →
      check_via_api u (.response 200 (.parsed d)) = some ⟨u, .TAKEN, some apiTakenMsg⟩) ∧
    (∀ d, apiStatusCode d = 0 → strLower (d.uniqueId.getD "") ≠ strLower u →
      check_via_api u (.response 200 (.parsed d)) = none) ∧
    (∀ d, apiStatusCode d = 10101 →
      check_via_api u (.response 200 (.parsed d)) = some ⟨u, .UNAVAILABLE, some apiBannedMsg⟩) ∧
    (∀ d, apiStatusCode d ≠ 0 → apiStatusCode d ≠ 10202 → apiStatusCode d ≠ 10101 →
      check_via_api u (.response 200 (.parsed d)) = none) ∧
    (∀ api sc c, check_via_api u api = none →
      perform_check u api sc c = analyze_response u sc c) ∧
    (∀ api sc c r, check_via_api u api = some r → perform_check u api sc c = r) := by
  refine ⟨fun e => rfl, ?_, fun e => rfl, ?_, ?_, ?_, ?_, ?_, ?_, ?_⟩
  · intro st b h
    simp [check_via_api, h]
  · intro d h
    simp [check_via_api, h]
  · intro d h₁ h₂
    simp [check_via_api, h₁, h₂]
  · intro d h₁ h₂
    simp [check_via_api, h₁, h₂]
  · intro d h
    simp [check_via_api, h]
  · intro d h₁ h₂ h₃
    simp [check_via_api, h₁, h₂, h₃]
  · intro api sc c h
    simp [perform_check, h]
  · intro api sc c r h
    simp [perform_check, h]

/-- C5 witness: an HTTP 200 API response whose parsed body carries status code
10202 classifies the handle "free_name_9001" as AVAILABLE. -/
theorem check_via_api_spec_witness :
    check_via_api "free_name_9001" (.response 200 (.parsed ⟨some 10202, none, none⟩)) =
      some ⟨"free_name_9001", .AVAILABLE, some apiAvailMsg⟩ :=
  (check_via_api_spec "free_name_9001").2.2.2.1 ⟨some 10202, none, none⟩ rfl

/-- C4: evaluation of the code at the failing input " @Ab ".  Because
`clean_username` strips the leading `@` characters before stripping the
surrounding whitespace, the cleaned handle keeps its `@`; `validate_username`
strips again and accepts it, so the resolver — and the network request — is
reached with the non-`@`-stripped handle "@ab" (here its HTML fallback sees
HTTP 404 and it resolves normally), contradicting the claimed invariant. -/
theorem clean_username_at_bug :
    clean_username " @Ab " = "@ab" ∧
    validate_username (clean_username " @Ab ") = true ∧
    check_username_full " @Ab " (fun _ => .response (.failure "api unreachable") 404 "") =
      ⟨"@ab", .AVAILABLE, some availMsg⟩ :=
  ⟨rfl, rfl, rfl⟩

/-- C7: evaluation of the code at the failing input " @ok ".  Its cleaned form
"@ok" fails the 2-24 alphanumeric/._ pattern, yet `check_username` still hands
it to the retry-wrapped resolver (a network call) and returns the resolver's
result — here TAKEN, not the claimed format-error UNAVAILABLE result. -/
theorem check_username_invalid_cleaned_bug :
    usernamePatternMatch (clean_username " @ok ") = false ∧
    check_username " @ok " (fun s => ⟨s, .TAKEN, some takenMsg⟩) =
      ⟨"@ok", .TAKEN, some takenMsg⟩ :=
  ⟨rfl, rfl⟩

/-- C8: evaluation of the code at the failing input built from the valid
lowercase handle "ab": normalizing " @AB " leaves the `@` in place (the `@`
lstrip precedes the whitespace strip), so it differs from normalizing "ab" —
the claimed normalization idempotence fails. -/
theorem clean_username_normalization_bug :
    usernamePatternMatch "ab" = true ∧
    clean_username (" @" ++ strUpper "ab" ++ " ") = "@ab" ∧
    clean_username "ab" = "ab" ∧
    clean_username (" @" ++ strUpper "ab" ++ " ") ≠ clean_username "ab" :=
  ⟨rfl, rfl, rfl, by decide⟩

lemma analyze_response_username (u : String) (sc : Nat) (c : String) :
    (analyze_response u sc c).username = u := by
  simp only [analyze_response]
  repeat' split
  all_goals rfl

lemma check_via_api_username (u : String) (api : ApiResponse) :
    ∀ r ∈ check_via_api u api, r.username = u := by
  intro r hr
  rw [Option.mem_def] at hr
  rcases api with e | ⟨st, body⟩
  · simp [check_via_api] at hr
  · rcases body with e | d
    · by_cases h : st = 200 <;> simp [check_via_api, h] at hr
    · by_cases h : st = 200
      · subst h
        by_cases h₀ : apiStatusCode d = 0 ∧ strLower (d.uniqueId.getD "") = strLower u
        · have he : check_via_api u (.response 200 (.parsed d)) =
              some ⟨u, .TAKEN, some apiTakenMsg⟩ := by
            simp [check_via_api, h₀]
          rw [he] at hr
          injection hr with h₂
          rw [← h₂]
        · by_cases h₁ : apiStatusCode d = 10202
          · have he : check_via_api u (.response 200 (.parsed d)) =
                some ⟨u, .AVAILABLE, some apiAvailMsg⟩ := by
              simp [check_via_api, h₀, h₁]
            rw [he] at hr
            injection hr with h₂
            rw [← h₂]
          · by_cases h₂ : apiStatusCode d = 10101
            · have he : check_via_api u (.response 200 (.parsed d)) =
                  some ⟨u, .UNAVAILABLE, some apiBannedMsg⟩ := by
                simp [check_via_api, h₀, h₁, h₂]
              rw [he] at hr
              injection hr with h₃
              rw [← h₃]
            · have he : check_via_api u (.response 200 (.parsed d)) = none := by
                simp [check_via_api, h₀, h₁, h₂]
              rw [he] at hr
              cases hr
      · simp [check_via_api, h] at hr

lemma perform_check_username (u : String) (api : ApiResponse) (sc : Nat) (c : String) :
    (perform_check u api sc c).username = u := by
  unfold perform_check
  cases h : check_via_api u api with
  | none => exact analyze_response_username u sc c
  | some r => exact check_via_api_username u api r (by rw [Option.mem_def, h])

lemma check_with_retry_go_username (u : String) (att : Nat → AttemptOutcome)
    (hatt : ∀ k r, att k = .ok r → r.username = u) :
    ∀ ks le, (check_with_retry_go u att ks le).1.username = u := by
  intro ks
  induction ks with
  | nil => intro le; rfl
  | cons k ks ih =>
    intro le
    simp only [check_with_retry_go]
    cases h : att k with
    | ok r => exact hatt k r h
    | fault e => exact ih (some e)

/-- C9 counterexample: for the caller input "@Foo" — format-valid once
cleaned — the result of the full single-check pipeline carries the cleaned
handle "foo" in its `username` field, not the original input "@Foo" as the
claim states. -/
theorem check_username_handle_counterexample :
    (check_username_full "@Foo" (fun _ => .response (.failure "api unreachable") 404 "")).username
      = "foo" ∧
    "foo" ≠ "@Foo" :=
  ⟨rfl, by decide⟩

/-- C9 amended: the `username` field of the result of `check_username` carries
the original caller input exactly when the input is rejected as format-invalid
(then the whole format-error result is fixed); an input resolved over the
network instead yields the resolver's result for the cleaned handle, and every
result the resolution path can produce carries the cleaned handle it was
invoked with — so the full pipeline returns the cleaned handle in that case. -/
theorem check_username_handle_spec (u : String) (resolve : String → CheckResult) :
    (validate_username (clean_username u) = false →
      check_username u resolve = ⟨u, .UNAVAILABLE, some invalidFormatMsg⟩) ∧
    (validate_username (clean_username u) = true →
      check_username u resolve = resolve (clean_username u)) ∧
    (∀ sc c, (analyze_response u sc c).username = u) ∧
    (∀ api, ∀ r ∈ check_via_api u api, r.username = u) ∧
    (∀ api sc c, (perform_check u api sc c).username = u) ∧
    (∀ att : Nat → AttemptOutcome, (∀ k r, att k = .ok r → r.username = u) →
      (check_with_retry u att).1.username = u) ∧
    (∀ net : Nat → NetOutcome,
      (check_username_full u net).username =
        if validate_username (clean_username u) then clean_username u else u) := by
  refine ⟨?_, ?_, analyze_response_username u, check_via_api_username u,
    perform_check_username u, ?_, ?_⟩
  · intro h
    simp [check_username, h]
  · intro h
    simp [check_username, h]
  · intro att hatt
    exact check_with_retry_go_username u att hatt (List.range' 1 MAX_RETRIES) none
  · intro net
    by_cases h : validate_username (clean_username u)
    · simp only [check_username_full, check_username, h, if_pos, if_true]
      refine check_with_retry_go_username (clean_username u) _ ?_ _ _
      intro k r hk
      cases hn : net k with
      | fault e => rw [hn] at hk; cases hk
      | response api sc c =>
        rw [hn] at hk
        simp only [attemptOf, AttemptOutcome.ok.injEq] at hk
        rw [← hk]
        exact perform_check_username (clean_username u) api sc c
    · simp only [check_username_full, check_username, h]
      simp [h]

/-- C9 amended witness: the single-character input "a" is format-invalid, so
the result carries the original input "a" with the format-error message. -/
theorem check_username_handle_spec_witness :
    check_username "a" (fun s => ⟨s, .TAKEN, none⟩) =
      ⟨"a", .UNAVAILABLE, some invalidFormatMsg⟩ :=
  (check_username_handle_spec "a" (fun s => ⟨s, .TAKEN, none⟩)).1 rfl

lemma status_cases (s : UsernameStatus) :
    s = .AVAILABLE ∨ s = .TAKEN ∨ s = .UNAVAILABLE ∨ s = .ERROR := by
  cases s
  · exact Or.inl rfl
  · exact Or.inr (Or.inl rfl)
  · exact Or.inr (Or.inr (Or.inl rfl))
  · exact Or.inr (Or.inr (Or.inr rfl))

/-- C10: the four per-status groups computed by `format_results_report`
partition its input — a result belongs to a group exactly when it has that
group's status, and every status is one of the four — so the four counts
printed in the report header sum to the printed total, which is the length of
the input list. -/
theorem reportGroups_partition (results : List CheckResult) :
    (((reportGroups results).1).length + ((reportGroups results).2.1).length +
      ((reportGroups results).2.2.1).length + ((reportGroups results).2.2.2).length
        = results.length) ∧
    (∀ r ∈ results,
      (r ∈ (reportGroups results).1 ↔ r.status = .AVAILABLE) ∧
      (r ∈ (reportGroups results).2.1 ↔ r.status = .TAKEN) ∧
      (r ∈ (reportGroups results).2.2.1 ↔ r.status = .UNAVAILABLE) ∧
      (r ∈ (reportGroups results).2.2.2 ↔ r.status = .ERROR)) ∧
    (∀ r : CheckResult,
      r.status = .AVAILABLE ∨ r.status = .TAKEN ∨ r.status = .UNAVAILABLE ∨
        r.status = .ERROR) := by
  refine ⟨?_, ?_, fun r => status_cases r.status⟩
  · induction results with
    | nil => rfl
    | cons r rs ih =>
      rcases status_cases r.status with h | h | h | h <;>
        simp only [reportGroups, List.filter_cons, h] at ih ⊢ <;>
          simp only [beq_self_eq_true, if_true, beq_iff_eq, reduceCtorEq, if_false,
            List.length_cons] <;> omega
  · intro r hr
    refine ⟨?_, ?_, ?_, ?_⟩ <;> simp [reportGroups, List.mem_filter, hr]

/-- C10 witness: a singleton AVAILABLE result lands in the AVAILABLE group and
the four header counts sum to the total 1. -/
theorem reportGroups_partition_witness :
    (⟨"a1", .AVAILABLE, none⟩ : CheckResult) ∈
      (reportGroups [⟨"a1", .AVAILABLE, none⟩]).1 ∧
    ((reportGroups [(⟨"a1", .AVAILABLE, none⟩ : CheckResult)]).1).length +
      ((reportGroups [(⟨"a1", .AVAILABLE, none⟩ : CheckResult)]).2.1).length +
      ((reportGroups [(⟨"a1", .AVAILABLE, none⟩ : CheckResult)]).2.2.1).length +
      ((reportGroups [(⟨"a1", .AVAILABLE, none⟩ : CheckResult)]).2.2.2).length = 1 := by
  have h := reportGroups_partition [(⟨"a1", .AVAILABLE, none⟩ : CheckResult)]
  exact ⟨((h.2.1 ⟨"a1", .AVAILABLE, none⟩ (by simp)).1).mpr rfl, h.1⟩

end Checker
